import Mathlib

/-!
Verification of the free-crypto-news example scripts.

Text is modelled as `List Char` (Python `str`).  Each definition below is a
shallow embedding of one function of the repository; the Python source file
and function are named in its doc comment.  Network and chat I/O are
abstracted as explicit parameters (the decoded JSON payloads, the delivery
oracle), and a raised Python exception is modelled as `Except.error`.
-/

/-- The fixed special-character list of `escape_markdown`
(`src/examples/telegram-digest.py`, line 83).  The backtick character is
written numerically. -/
def specialChars : List Char :=
  ['_', '*', '[', ']', '(', ')', '~', Char.ofNat 96, '>', '#', '+', '-', '=',
   '|', '{', '}', '.', '!']

/-- One step of the loop body of `escape_markdown`: Python
`text.replace(char, '\\' + char)` for a one-character `char` replaces every
occurrence of that character by a backslash followed by the character. -/
def escapeChar (c : Char) (s : List Char) : List Char :=
  s.flatMap (fun d => if d = c then ['\\', d] else [d])

/-- `escape_markdown` (`src/examples/telegram-digest.py`, lines 81-86):
a left fold of the per-character replacement over the special-character
list, exactly mirroring the Python `for char in special_chars` loop. -/
def escape_markdown (s : List Char) : List Char :=
  specialChars.foldl (fun t c => escapeChar c t) s

lemma foldl_escapeChar_eq_flatMap (L : List Char) (hb : '\\' ∉ L)
    (hnd : L.Nodup) (s : List Char) :
    L.foldl (fun t c => escapeChar c t) s
      = s.flatMap (fun c => if c ∈ L then ['\\', c] else [c]) := by
  induction L generalizing s with
  | nil => simp
  | cons a L ih =>
    have hbA : '\\' ≠ a := fun h => hb (h ▸ List.mem_cons_self a L)
    have hbL : '\\' ∉ L := fun h => hb (List.mem_cons_of_mem a h)
    have haL : a ∉ L := (List.nodup_cons.mp hnd).1
    have hndL : L.Nodup := (List.nodup_cons.mp hnd).2
    show L.foldl (fun t c => escapeChar c t) (escapeChar a s) = _
    rw [ih hbL hndL]
    unfold escapeChar
    rw [List.flatMap_assoc]
    refine List.flatMap_congr (fun d _ => ?_)
    by_cases hda : d = a
    · subst hda
      simp [haL, hbL, hbA]
    · simp only [if_neg hda, List.flatMap_singleton, List.mem_cons]
      by_cases hdL : d ∈ L
      · simp [hdL, hda]
      · simp [hdL, hda]

/-- Each input character is rewritten independently: a special character
becomes backslash-plus-itself, every other character (the backslash
included) is kept as it is. -/
lemma escape_eq_flatMap (s : List Char) :
    escape_markdown s
      = s.flatMap (fun c => if c ∈ specialChars then ['\\', c] else [c]) :=
  foldl_escapeChar_eq_flatMap specialChars (by decide) (by decide) s

/-- Scanner for the escaping property: `run` counts the backslashes read
immediately before the current position; a special character is accepted
only when that count is exactly one. -/
def escRun : Nat → List Char → Bool
  | _, [] => true
  | run, c :: rest =>
    if c = '\\' then escRun (run + 1) rest
    else if c ∈ specialChars then (run == 1) && escRun 0 rest
    else escRun 0 rest

/-- A string passes when every occurrence of a special character is
preceded by exactly one backslash (so in particular no unescaped
occurrence remains). -/
def exactlyEscaped (s : List Char) : Bool :=
  escRun 0 s

/-- An article as consumed by `telegram-digest.py`: a JSON object whose
fields may all be absent (`article.get(...)` with a default). -/
structure Article where
  title : Option (List Char)
  source : Option (List Char)
  link : Option (List Char)
  timeAgo : Option (List Char)

/-- The bullet of `format_article` (`telegram-digest.py`, line 72):
`f"{index}. " if index else "📰 "`.  Python truthiness makes both `None`
and `0` take the glyph branch. -/
def article_bullet : Option Int → List Char
  | some i => if i = 0 then ("📰 ".data) else ((toString i).data) ++ (". ".data)
  | none => ("📰 ".data)

/-- The part of `format_article` after the bullet
(`telegram-digest.py`, lines 73-78): the title is passed through
`escape_markdown`; source, timeAgo and link are embedded verbatim. -/
def format_body (a : Article) : List Char :=
  ("*".data) ++ escape_markdown (a.title.getD ("No title".data))
    ++ ("*\n└ ".data) ++ a.source.getD ("Unknown".data)
    ++ (" • ".data) ++ a.timeAgo.getD []
    ++ ("\n🔗 [Read more](".data) ++ a.link.getD [] ++ (")".data)

/-- `format_article` (`telegram-digest.py`, lines 70-78). -/
def format_article (a : Article) (index : Option Int) : List Char :=
  article_bullet index ++ format_body a

/-- A trending topic as consumed by the bot: all fields optional. -/
structure TrendingTopic where
  topic : Option (List Char)
  count : Option Nat
  sentiment : Option (List Char)

/-- Sentiment marker chosen from `topic.get('sentiment')`
(`telegram-digest.py`, lines 196, 235, 330): the comparison is against the
un-defaulted lookup, `None` falling to the neutral marker. -/
def sentiment_emoji_opt (s : Option (List Char)) : List Char :=
  if s = some ("bullish".data) then ("🟢".data)
  else if s = some ("bearish".data) then ("🔴".data)
  else ("⚪".data)

/-- Sentiment marker chosen from an already-defaulted sentiment string
(`telegram-digest.py`, line 227). -/
def sentiment_emoji_str (s : List Char) : List Char :=
  if s = ("bullish".data) then ("🟢".data)
  else if s = ("bearish".data) then ("🔴".data)
  else ("⚪".data)

/-- One line of `trending_command` (`telegram-digest.py`, lines 195-201):
the topic name goes through `escape_markdown`, the sentiment word is
embedded verbatim. -/
def trending_topic_line (i : Nat) (t : TrendingTopic) : List Char :=
  ((toString i).data) ++ ("\\. ".data) ++ sentiment_emoji_opt t.sentiment
    ++ (" *".data) ++ escape_markdown (t.topic.getD ("Unknown".data))
    ++ ("* \\- ".data) ++ ((toString (t.count.getD 0)).data)
    ++ (" mentions \\(".data) ++ (t.sentiment.getD ("neutral".data))
    ++ ("\\)\n".data)

/-- The `sentimentBreakdown` object of the analysis payload. -/
structure SentimentBreakdown where
  bullish : Option Nat
  bearish : Option Nat
  neutral : Option Nat

/-- The `analysis` object of the `/api/analyze` payload. -/
structure Analysis where
  overallSentiment : Option (List Char)
  sentimentBreakdown : Option SentimentBreakdown

/-- The `/api/analyze` response envelope; `analysis = none` models a
missing or falsy `analysis` value. -/
structure AnalyzeData where
  analysis : Option Analysis

/-- The `/api/news` response envelope. -/
structure NewsData where
  articles : List Article

/-- The `/api/trending` response envelope. -/
structure TrendingData where
  trending : List TrendingTopic

/-- The breakdown line of the digest (`telegram-digest.py`, line 229). -/
def breakdown_line (bd : SentimentBreakdown) : List Char :=
  ("Bullish: ".data) ++ ((toString (bd.bullish.getD 0)).data)
    ++ (" \\| Bearish: ".data) ++ ((toString (bd.bearish.getD 0)).data)
    ++ (" \\| Neutral: ".data) ++ ((toString (bd.neutral.getD 0)).data)
    ++ ("\n\n".data)

/-- The market-sentiment block of `digest_command`
(`telegram-digest.py`, lines 223-229): the sentiment word is upper-cased
and passed through `escape_markdown`. -/
def sentiment_section (an : Analysis) : List Char :=
  ("*Market Sentiment:* ".data)
    ++ sentiment_emoji_str (an.overallSentiment.getD ("neutral".data))
    ++ (" ".data)
    ++ escape_markdown ((an.overallSentiment.getD ("neutral".data)).map Char.toUpper)
    ++ ("\n".data)
    ++ breakdown_line (an.sentimentBreakdown.getD ⟨none, none, none⟩)

/-- One topic line of the digest's trending block
(`telegram-digest.py`, lines 235-236); note the empty-string default for
the topic name here. -/
def digest_topic_line (t : TrendingTopic) : List Char :=
  ("  ".data) ++ sentiment_emoji_opt t.sentiment ++ (" ".data)
    ++ escape_markdown (t.topic.getD []) ++ (" \\(".data)
    ++ ((toString (t.count.getD 0)).data) ++ ("\\)\n".data)

/-- The trending block of `digest_command`
(`telegram-digest.py`, lines 233-237). -/
def digest_trending_section (td : TrendingData) : List Char :=
  ("*🔥 Top Trending:*\n".data)
    ++ ((td.trending.take 5).map digest_topic_line).flatten
    ++ ("\n".data)

/-- Python `enumerate(l, n)`. -/
def numberFrom (n : Nat) : List α → List (Nat × α)
  | [] => []
  | a :: rest => (n, a) :: numberFrom (n + 1) rest

/-- The headlines block of `digest_command`
(`telegram-digest.py`, lines 241-243). -/
def digest_headlines_section (nd : NewsData) : List Char :=
  ("*📰 Top Headlines:*\n\n".data)
    ++ ((numberFrom 1 (nd.articles.take 5)).map
          (fun p => format_article p.2 (some (Int.ofNat p.1)) ++ ("\n\n".data))).flatten

/-- The digest message of `digest_command`, kept as its header, its three
conditional sections (present exactly when the Python `if` guard fires)
and its footer; `digest_text` below is the concatenation actually sent. -/
structure DigestDoc where
  header : List Char
  sentimentSec : Option (List Char)
  trendingSec : Option (List Char)
  headlinesSec : Option (List Char)
  footer : List Char

/-- `digest_command` (`telegram-digest.py`, lines 208-247).  The three
fetch results are passed in (`none` = `fetch_news` returned `None`); the
current date is the `today` parameter.  Section guards mirror the Python
truthiness tests `analyze_data and analyze_data.get('analysis')`,
`trending_data and trending_data.get('trending')`,
`news_data and news_data.get('articles')`. -/
def digest_command (n : Option NewsData) (t : Option TrendingData)
    (a : Option AnalyzeData) (today : List Char) : DigestDoc where
  header := ("📋 *CRYPTO NEWS DIGEST*\n".data) ++ ("_".data)
    ++ escape_markdown today ++ ("_\n\n".data)
  sentimentSec := match a with
    | some ad => match ad.analysis with
      | some an => some (sentiment_section an)
      | none => none
    | none => none
  trendingSec := match t with
    | some td => if td.trending.isEmpty then none
                 else some (digest_trending_section td)
    | none => none
  headlinesSec := match n with
    | some nd => if nd.articles.isEmpty then none
                 else some (digest_headlines_section nd)
    | none => none
  footer := ("_Powered by Free Crypto News API_".data)

/-- The digest text in assembly order (header, then the sections that are
present, then the footer), as the Python `text` accumulation produces. -/
def digest_text (d : DigestDoc) : List Char :=
  d.header ++ (d.sentimentSec.getD []) ++ (d.trendingSec.getD [])
    ++ (d.headlinesSec.getD []) ++ d.footer

/-- A raised Python exception, as crossing a function boundary. -/
inductive PyErr
  | netError
  | decodeError
deriving DecidableEq, Repr

/-- What the HTTP layer does on one call: the request errors out, or a
response arrives with a status code and a body that either decodes to a
payload (`some`) or fails JSON decoding (`none`). -/
inductive FetchOutcome (α : Type)
  | netFail
  | response (status : Nat) (body : Option α)
deriving DecidableEq

/-- `fetch_news` of `telegram-digest.py` (lines 58-67): the whole body is
inside `try`, any exception is caught and logged, a non-200 status falls
through, and every non-success path reaches `return None`.  The result is
`Except.ok` everywhere: no exception escapes. -/
def fetch_news_digest : FetchOutcome α → Except PyErr (Option α)
  | .netFail => .ok none
  | .response status body =>
    if status = 200 then
      match body with
      | some d => .ok (some d)
      | none => .ok none
    else .ok none

/-- `fetch_news` of `telegram-bot.py` (lines 16-19): no `try` block and no
status check — a network failure or a JSON decode failure raises out of
the function, and any decodable body is returned whatever the status. -/
def fetch_news_bot : FetchOutcome α → Except PyErr α
  | .netFail => .error .netError
  | .response _ body =>
    match body with
    | some d => .ok d
    | none => .error .decodeError

/-- An outcome that is a network failure, a non-200 status, or a JSON
decode failure. -/
def isFailureOutcome : FetchOutcome α → Prop
  | .netFail => True
  | .response status body => status ≠ 200 ∨ body = none

/-- The per-user record stored in `subscribed_users`
(`telegram-digest.py`, lines 263-267). -/
structure SubUserData where
  chat_id : Nat
  subscribed_at : List Char
  timezone : List Char
deriving DecidableEq, Repr

/-- Result reported by the subscribe handler. -/
inductive SubscribeResult
  | created
  | already_subscribed
deriving DecidableEq, Repr

/-- `subscribe_command` (`telegram-digest.py`, lines 250-274).  The
registry is the `subscribed_users` dict, modelled as an association list
in insertion order; `now` is `datetime.now().isoformat()`.  An existing
key returns early without touching the registry; otherwise a fresh entry
with timezone `"UTC"` is stored. -/
def subscribe_command (reg : List (Nat × SubUserData)) (user_id chat_id : Nat)
    (now : List Char) : SubscribeResult × List (Nat × SubUserData) :=
  if (reg.lookup user_id).isSome then (.already_subscribed, reg)
  else (.created, reg ++ [(user_id, ⟨chat_id, now, ("UTC".data)⟩)])

/-- `send_daily_digest` (`telegram-digest.py`, lines 313-349).  The loop
body (fetching, message assembly and `bot.send_message`) is abstracted as
`deliver`; `Except.error` models an exception raised inside one
iteration, which the per-iteration `try`/`except` catches and logs.  The
returned list records, in registry order, each subscriber attempted and
whether its delivery succeeded. -/
def send_daily_digest (subs : List (Nat × SubUserData))
    (deliver : Nat → SubUserData → Except PyErr Unit) : List (Nat × Bool) :=
  match subs with
  | [] => []
  | (uid, d) :: rest =>
    (uid, match deliver uid d with
          | .ok _ => true
          | .error _ => false) :: send_daily_digest rest deliver

/-- An article as consumed by `telegram-bot.py` and `langchain-tool.py`:
these scripts index the fields directly, so they are required. -/
structure BotArticle where
  title : List Char
  source : List Char
  link : List Char
  timeAgo : List Char

/-- One bullet line shared by the DeFi and Bitcoin handlers of
`telegram-bot.py` (lines 46 and 57). -/
def bot_article_line (a : BotArticle) : List Char :=
  ("• [".data) ++ a.title ++ ("](".data) ++ a.link ++ (")\n".data)

/-- The message composed by `defi_command` (`telegram-bot.py`, lines
39-48): the header is emitted unconditionally and an empty article list
leaves it with no body. -/
def defi_message (articles : List BotArticle) : List Char :=
  ("💰 *DeFi News*\n\n".data) ++ (articles.map bot_article_line).flatten

/-- The message composed by `bitcoin_command` (`telegram-bot.py`, lines
50-59), same shape as the DeFi handler. -/
def bitcoin_message (articles : List BotArticle) : List Char :=
  ("₿ *Bitcoin News*\n\n".data) ++ (articles.map bot_article_line).flatten

/-- The reply text of `news_command` (`telegram-bot.py`, lines 21-37): an
empty list is answered with the placeholder, otherwise a numbered list is
built. -/
def news_command_reply (articles : List BotArticle) : List Char :=
  if articles.isEmpty then ("No news available right now.".data)
  else ("📰 *Latest Crypto News*\n\n".data)
    ++ ((numberFrom 1 articles).map
          (fun p => ((toString p.1).data) ++ (". [".data) ++ p.2.title
            ++ ("](".data) ++ p.2.link ++ (")\n".data)
            ++ ("   _".data) ++ p.2.source ++ (" • ".data) ++ p.2.timeAgo
            ++ ("_\n\n".data))).flatten

/-- The reply text of `breaking_command` (`telegram-bot.py`, lines
61-75): placeholder on empty, bulleted list otherwise. -/
def breaking_reply (articles : List BotArticle) : List Char :=
  if articles.isEmpty then ("🔇 No breaking news in the last 2 hours.".data)
  else ("🚨 *Breaking News*\n\n".data)
    ++ (articles.map
          (fun a => ("• [".data) ++ a.title ++ ("](".data) ++ a.link
            ++ (")\n".data) ++ ("  _".data) ++ a.timeAgo
            ++ ("_\n\n".data))).flatten

/-- An article as consumed by the LangChain tools. -/
structure ToolArticle where
  title : List Char
  source : List Char
  timeAgo : List Char

/-- `get_crypto_news` (`langchain-tool.py`, lines 17-26):
`"\n".join(result) if result else "No news available."`. -/
def get_crypto_news (articles : List ToolArticle) : List Char :=
  let result := articles.map
    (fun a => ("• ".data) ++ a.title ++ (" (".data) ++ a.source
      ++ (", ".data) ++ a.timeAgo ++ (")".data))
  if result.isEmpty then ("No news available.".data)
  else List.intercalate ("\n".data) result

/-- C1 counterexample: on an input that already contains a backslash
(here backslash-dot), the escaped output carries the dot behind two
backslashes, so it is not preceded by exactly one. -/
theorem claim1_cex : exactlyEscaped (escape_markdown ['\\', '.']) = false := by
  decide

/-- C1 (amended): for every input containing no backslash,
`escape_markdown` is exhaustive — every special character of the output
is preceded by exactly one backslash and no unescaped occurrence
remains. -/
theorem claim1 (s : List Char) (h : '\\' ∉ s) :
    exactlyEscaped (escape_markdown s) = true := by
  rw [exactlyEscaped, escape_eq_flatMap]
  induction s with
  | nil => rfl
  | cons c rest ih =>
    have hc : ¬(c = '\\') := fun e => h (e ▸ List.mem_cons_self c rest)
    have hrest : '\\' ∉ rest := fun m => h (List.mem_cons_of_mem c m)
    rw [List.flatMap_cons]
    by_cases hsp : c ∈ specialChars
    · simp only [if_pos hsp, List.cons_append, List.nil_append]
      simp [escRun, hc, hsp]
      exact ih hrest
    · simp only [if_neg hsp, List.cons_append, List.nil_append]
      simp [escRun, hc, hsp]
      exact ih hrest

/-- C1 witness: a concrete backslash-free input passes the scanner after
escaping. -/
theorem claim1_witness : exactlyEscaped (escape_markdown ("a.b!".data)) = true :=
  claim1 ("a.b!".data) (by decide)

/-- C10: the backslash is not in the special-character list, every input
character is rewritten independently (a backslash maps to itself with
nothing prepended), and `escape_markdown` is not idempotent: applying it
twice to a dot differs from applying it once. -/
theorem claim10 :
    (specialChars.contains '\\') = false
  ∧ (∀ s : List Char, escape_markdown s
        = s.flatMap (fun c => if c ∈ specialChars then ['\\', c] else [c]))
  ∧ ((escape_markdown (escape_markdown (".".data))
        == escape_markdown (".".data))) = false := by
  refine ⟨by decide, escape_eq_flatMap, by decide⟩

/-- The article with every field absent. -/
def emptyArticle : Article := ⟨none, none, none, none⟩

/-- The article carrying exactly the documented fallback values. -/
def defaultedArticle : Article :=
  ⟨some ("No title".data), some ("Unknown".data), some [], some []⟩

/-- C7: `format_article` is total, and for every article — whatever
subset of its fields is absent — it renders exactly as the article in
which each absent field is replaced by its documented fallback
("No title" for title, "Unknown" for source, the empty string for link
and timeAgo); concretely, the all-absent article renders to the fallback
text. -/
theorem claim7 :
    (∀ (a : Article) (idx : Option Int),
        format_article a idx
          = format_article
              ⟨some (a.title.getD ("No title".data)),
               some (a.source.getD ("Unknown".data)),
               some (a.link.getD []),
               some (a.timeAgo.getD [])⟩ idx)
  ∧ format_article emptyArticle none
      = ("📰 *No title*\n└ Unknown • \n🔗 [Read more]()".data) := by
  refine ⟨fun a idx => ?_, by decide⟩
  rcases a with ⟨t, s, l, ta⟩
  rcases t <;> rcases s <;> rcases l <;> rcases ta <;> rfl

/-- C9 counterexample: with index 0 the bullet is the default glyph, not
"0. " — Python `if index` treats 0 as falsy. -/
theorem claim9_cex :
    format_article emptyArticle (some 0) = format_article emptyArticle none
  ∧ (decide ((("0. ".data)) <+: format_article emptyArticle (some 0))) = false := by
  exact ⟨rfl, by decide⟩

/-- C9 (amended): a present nonzero index yields the numbered bullet
"{index}. "; an absent index, and also index 0, yield the default glyph
bullet. -/
theorem claim9 (a : Article) (i : Int) :
    (i ≠ 0 → format_article a (some i)
        = ((toString i).data) ++ (". ".data) ++ format_body a)
  ∧ format_article a none = ("📰 ".data) ++ format_body a
  ∧ format_article a (some 0) = ("📰 ".data) ++ format_body a := by
  refine ⟨fun h => ?_, rfl, ?_⟩
  · simp [format_article, article_bullet, h, List.append_assoc]
  · simp [format_article, article_bullet]

/-- C9 witness: index 2 produces the numbered bullet. -/
theorem claim9_witness :
    format_article emptyArticle (some 2)
      = ((toString (2 : Int)).data) ++ (". ".data) ++ format_body emptyArticle :=
  (claim9 emptyArticle 2).1 (by decide)

/-- C3 counterexample: the `telegram-bot.py` fetch has no exception
handler, so a network failure raises across its boundary instead of
returning a failure value. -/
theorem claim3_cex :
    fetch_news_bot (.netFail : FetchOutcome Nat) = Except.error PyErr.netError := rfl

/-- C3 (amended): the `telegram-digest.py` fetch returns the explicit
failure value `None` on every network failure, non-200 status or decode
failure and never raises, and passes a decoded 200 body through; the
`telegram-bot.py` fetch instead raises on network and decode failures
(and performs no status check). -/
theorem claim3 :
    (∀ (α : Type) (o : FetchOutcome α),
        isFailureOutcome o → fetch_news_digest o = Except.ok none)
  ∧ (∀ (α : Type) (d : α),
        fetch_news_digest (FetchOutcome.response 200 (some d)) = Except.ok (some d))
  ∧ (∀ (α : Type) (s : Nat),
        fetch_news_bot (FetchOutcome.response s (none : Option α))
            = Except.error PyErr.decodeError
      ∧ fetch_news_bot (.netFail : FetchOutcome α) = Except.error PyErr.netError) := by
  refine ⟨?_, fun α d => rfl, fun α s => ⟨rfl, rfl⟩⟩
  intro α o ho
  rcases o with _ | ⟨s, b⟩
  · rfl
  · by_cases hs : s = 200
    · subst hs
      rcases ho with h | h
      · exact absurd rfl h
      · subst h; rfl
    · simp [fetch_news_digest, hs]

/-- C3 witness: the digest fetch on a network failure returns `None`
without raising. -/
theorem claim3_witness :
    fetch_news_digest (.netFail : FetchOutcome Nat) = Except.ok none :=
  claim3.1 Nat FetchOutcome.netFail True.intro

/-- An article whose source field carries an unescaped dot. -/
def cexArticle : Article := ⟨some ("t".data), some ("a.b".data), some [], some []⟩

/-- C2 counterexample: the source field is embedded verbatim — the
rendered article contains "└ a.b" with its dot bare, and the escaped form
of the source appears nowhere, so a special character of a user-supplied
field survives unescaped. -/
theorem claim2_cex :
    (decide ((("└ a.b".data)) <:+: format_article cexArticle none)) = true
  ∧ (decide ((("a\\.b".data)) <:+: format_article cexArticle none)) = false := by
  exact ⟨by decide, by decide⟩

/-- C2 (amended): `escape_markdown` is applied to the title in
`format_article`, to the topic name in `trending_command`, and to the
sentiment word in the digest's market-sentiment line; but the source and
timeAgo fields of `format_article` and the sentiment word of
`trending_command` are embedded verbatim, so their special characters
reach the output unescaped. -/
theorem claim2 :
    (∀ (t s l ta : List Char) (idx : Option Int),
        (escape_markdown t <:+: format_article ⟨some t, some s, some l, some ta⟩ idx)
      ∧ (s <:+: format_article ⟨some t, some s, some l, some ta⟩ idx)
      ∧ (ta <:+: format_article ⟨some t, some s, some l, some ta⟩ idx))
  ∧ (∀ (i : Nat) (tp cs : List Char) (c : Nat),
        (escape_markdown tp <:+: trending_topic_line i ⟨some tp, some c, some cs⟩)
      ∧ (cs <:+: trending_topic_line i ⟨some tp, some c, some cs⟩))
  ∧ (∀ an : Analysis,
        escape_markdown ((an.overallSentiment.getD ("neutral".data)).map Char.toUpper)
          <:+: sentiment_section an) := by
  refine ⟨fun t s l ta idx => ⟨?_, ?_, ?_⟩, fun i tp cs c => ⟨?_, ?_⟩, fun an => ?_⟩
  · exact ⟨article_bullet idx ++ ("*".data),
      ("*\n└ ".data) ++ s ++ (" • ".data) ++ ta
        ++ ("\n🔗 [Read more](".data) ++ l ++ (")".data),
      by simp [format_article, format_body, List.append_assoc]⟩
  · exact ⟨article_bullet idx ++ ("*".data) ++ escape_markdown t ++ ("*\n└ ".data),
      (" • ".data) ++ ta ++ ("\n🔗 [Read more](".data) ++ l ++ (")".data),
      by simp [format_article, format_body, List.append_assoc]⟩
  · exact ⟨article_bullet idx ++ ("*".data) ++ escape_markdown t ++ ("*\n└ ".data)
        ++ s ++ (" • ".data),
      ("\n🔗 [Read more](".data) ++ l ++ (")".data),
      by simp [format_article, format_body, List.append_assoc]⟩
  · exact ⟨((toString i).data) ++ ("\\. ".data) ++ sentiment_emoji_opt (some cs)
        ++ (" *".data),
      ("* \\- ".data) ++ ((toString c).data) ++ (" mentions \\(".data) ++ cs
        ++ ("\\)\n".data),
      by simp [trending_topic_line, List.append_assoc]⟩
  · exact ⟨((toString i).data) ++ ("\\. ".data) ++ sentiment_emoji_opt (some cs)
        ++ (" *".data) ++ escape_markdown tp ++ ("* \\- ".data)
        ++ ((toString c).data) ++ (" mentions \\(".data),
      ("\\)\n".data),
      by simp [trending_topic_line, List.append_assoc]⟩
  · exact ⟨("*Market Sentiment:* ".data)
        ++ sentiment_emoji_str (an.overallSentiment.getD ("neutral".data))
        ++ (" ".data),
      ("\n".data) ++ breakdown_line (an.sentimentBreakdown.getD ⟨none, none, none⟩),
      by simp [sentiment_section, List.append_assoc]⟩

/-- C4 counterexample: a news fetch that succeeds with an empty article
list is a succeeded fetch whose section is nevertheless omitted, so the
digest does not contain exactly the sections whose fetch succeeded. -/
theorem claim4_cex :
    (some (⟨[]⟩ : NewsData)).isSome = true
  ∧ (digest_command (some ⟨[]⟩) none none []).headlinesSec = none := ⟨rfl, rfl⟩

/-- C4 (amended): each digest section is present exactly when its fetch
succeeded with usable content — an analysis object for the sentiment
section, a nonempty trending list, a nonempty article list — failed or
empty-content fetches are omitted, and no error is raised (the composer
is total); in particular, when only the trending fetch fails and the
other two return content, the document has the sentiment and headlines
sections and no trending section. -/
theorem claim4 (n : Option NewsData) (t : Option TrendingData)
    (a : Option AnalyzeData) (day : List Char) :
    ((digest_command n t a day).sentimentSec.isSome
        ↔ ∃ ad an, a = some ad ∧ ad.analysis = some an)
  ∧ ((digest_command n t a day).trendingSec.isSome
        ↔ ∃ td, t = some td ∧ td.trending ≠ [])
  ∧ ((digest_command n t a day).headlinesSec.isSome
        ↔ ∃ nd, n = some nd ∧ nd.articles ≠ []) := by
  refine ⟨?_, ?_, ?_⟩
  · rcases a with _ | ad
    · simp [digest_command]
    · rcases had : ad.analysis with _ | an <;> simp [digest_command, had]
  · rcases t with _ | td
    · simp [digest_command]
    · rcases htd : td.trending with _ | ⟨x, xs⟩ <;> simp [digest_command, htd]
  · rcases n with _ | nd
    · simp [digest_command]
    · rcases hnd : nd.articles with _ | ⟨x, xs⟩ <;> simp [digest_command, hnd]

/-- C5: scheduled fan-out attempts delivery for every subscriber in
registry order whatever the per-subscriber outcomes are, and in the
three-subscriber scenario where only the second delivery raises, the
first and third still complete and the failure is recorded. -/
theorem claim5 :
    (∀ (subs : List (Nat × SubUserData))
        (deliver : Nat → SubUserData → Except PyErr Unit),
        (send_daily_digest subs deliver).map Prod.fst = subs.map Prod.fst)
  ∧ (∀ d1 d2 d3 : SubUserData,
        (send_daily_digest [(1, d1), (2, d2), (3, d3)]
            (fun uid _ => if uid = 2 then .error .netError else .ok ())).map Prod.snd
          = [true, false, true]) := by
  constructor
  · intro subs deliver
    induction subs with
    | nil => rfl
    | cons p rest ih =>
      rcases p with ⟨uid, d⟩
      simp [send_daily_digest, ih]
  · intro d1 d2 d3
    rfl

lemma lookup_none_countP (uid : Nat) (l : List (Nat × SubUserData))
    (h : l.lookup uid = none) : l.countP (fun p => uid == p.1) = 0 := by
  induction l with
  | nil => rfl
  | cons p rest ih =>
    rcases p with ⟨k, v⟩
    rw [List.lookup_cons] at h
    rcases hk : (uid == k) with _ | _
    · rw [hk] at h
      rw [List.countP_cons]
      simp [hk, ih h]
    · rw [hk] at h
      cases h

lemma lookup_append_self (uid : Nat) (e : SubUserData)
    (l : List (Nat × SubUserData)) (h : l.lookup uid = none) :
    (l ++ [(uid, e)]).lookup uid = some e := by
  induction l with
  | nil => simp
  | cons p rest ih =>
    rcases p with ⟨k, v⟩
    rw [List.lookup_cons] at h
    rw [List.cons_append, List.lookup_cons]
    rcases hk : (uid == k) with _ | _
    · rw [hk] at h
      simp only []
      exact ih h
    · rw [hk] at h
      cases h

/-- C6: subscribing a fresh id then subscribing it again returns
`created` then `already_subscribed`, the second call leaves the registry
untouched, the stored entry keeps the first call's chat id and timestamp,
and the registry holds exactly one entry for that id. -/
theorem claim6 (reg : List (Nat × SubUserData)) (uid cid1 cid2 : Nat)
    (t1 t2 : List Char) (h : reg.lookup uid = none) :
    (subscribe_command reg uid cid1 t1).1 = SubscribeResult.created
  ∧ (subscribe_command (subscribe_command reg uid cid1 t1).2 uid cid2 t2).1
      = SubscribeResult.already_subscribed
  ∧ (subscribe_command (subscribe_command reg uid cid1 t1).2 uid cid2 t2).2
      = (subscribe_command reg uid cid1 t1).2
  ∧ ((subscribe_command (subscribe_command reg uid cid1 t1).2 uid cid2 t2).2).lookup uid
      = some ⟨cid1, t1, ("UTC".data)⟩
  ∧ ((subscribe_command (subscribe_command reg uid cid1 t1).2 uid cid2 t2).2).countP
        (fun p => uid == p.1) = 1 := by
  have h1 : (subscribe_command reg uid cid1 t1)
      = (.created, reg ++ [(uid, ⟨cid1, t1, ("UTC".data)⟩)]) := by
    simp [subscribe_command, h]
  have h2 : ((reg ++ [(uid, (⟨cid1, t1, ("UTC".data)⟩ : SubUserData))]).lookup uid)
      = some ⟨cid1, t1, ("UTC".data)⟩ :=
    lookup_append_self uid _ reg h
  have h3 : (subscribe_command (reg ++ [(uid, ⟨cid1, t1, ("UTC".data)⟩)]) uid cid2 t2)
      = (.already_subscribed, reg ++ [(uid, ⟨cid1, t1, ("UTC".data)⟩)]) := by
    simp [subscribe_command, h2]
  refine ⟨by rw [h1], by rw [h1, h3], by rw [h1, h3], ?_, ?_⟩
  · rw [h1, h3]
    exact h2
  · rw [h1, h3]
    rw [List.countP_append, lookup_none_countP uid reg h]
    simp

/-- C6 witness: the double-subscribe scenario at concrete values. -/
theorem claim6_witness :
    (subscribe_command [] 7 100 ("2024".data)).1 = SubscribeResult.created
  ∧ (subscribe_command (subscribe_command [] 7 100 ("2024".data)).2 7 200 ("2025".data)).1
      = SubscribeResult.already_subscribed
  ∧ (subscribe_command (subscribe_command [] 7 100 ("2024".data)).2 7 200 ("2025".data)).2
      = (subscribe_command [] 7 100 ("2024".data)).2
  ∧ ((subscribe_command (subscribe_command [] 7 100 ("2024".data)).2 7 200 ("2025".data)).2).lookup 7
      = some ⟨100, ("2024".data), ("UTC".data)⟩
  ∧ ((subscribe_command (subscribe_command [] 7 100 ("2024".data)).2 7 200 ("2025".data)).2).countP
        (fun p => 7 == p.1) = 1 :=
  claim6 [] 7 100 200 ("2024".data) ("2025".data) rfl

/-- C8 counterexample: with an empty article list the DeFi and Bitcoin
handlers of `telegram-bot.py` send the bare block header with no body and
no placeholder. -/
theorem claim8_cex :
    defi_message [] = ("💰 *DeFi News*\n\n".data)
  ∧ bitcoin_message [] = ("₿ *Bitcoin News*\n\n".data) := by
  exact ⟨by decide, by decide⟩

/-- C8 (amended): on an empty item sequence the news and breaking
handlers and the LangChain news tool return their documented "no data"
placeholder, while the DeFi and Bitcoin handlers of `telegram-bot.py`
return a header line with no body. -/
theorem claim8 :
    get_crypto_news [] = ("No news available.".data)
  ∧ news_command_reply [] = ("No news available right now.".data)
  ∧ breaking_reply [] = ("🔇 No breaking news in the last 2 hours.".data)
  ∧ defi_message [] = ("💰 *DeFi News*\n\n".data)
  ∧ bitcoin_message [] = ("₿ *Bitcoin News*\n\n".data) := by
  refine ⟨by decide, by decide, by decide, by decide, by decide⟩
